import Mathlib

set_option linter.unusedVariables false

namespace NexusCLI

/-! Shallow embedding of the nexus-cli checkpoint manager and execution engine
(src/lib/checkpoint_manager.py and src/lib/execution_engine.py).

Conventions of the embedding:
  * Every call that reads the wall clock (`datetime.now()`, `time.time()`)
    takes an explicit `now : Nat`, used for all clock readings within that
    call; ISO timestamp strings are modelled as these `Nat` instants.
  * The persisted checkpoint document of one feature is modelled as an
    `Option ExecutionCheckpoint` (`none` = no file on disk, or a file that
    fails to parse).  `save_checkpoint` refreshes `updated_at` and replaces
    the stored document; the temp-file-and-rename mechanics collapse to
    replacing the value, and the save is modelled as succeeding.
  * Python truthiness of the optional `error_message` / `result` strings
    (`if error_message:`) is `truthy` below: `None` and `""` are falsy.
  * The work function of a task is `Nat → Except String (Option String)`:
    attempt number (the retry count at that attempt) to either a raised
    error / timeout message (`Except.error`) or a produced value
    (`Except.ok`; `none` models a falsy Python result, for which the source
    stores and reports no output).
  * Logger calls, progress callbacks and the `duration_seconds` fields are
    wall-clock observability not touched by the claims and are not modelled.
    The persistence calls and the task/batch completion callbacks are
    recorded in an `EngineEvent` trace, together with one `attempt` event
    per invocation of the work function.
  * The parallel batch path is modelled at the deterministic schedule in
    which submitted tasks run and are collected in submission order (the
    legal schedule of a single-worker pool); its status derivation and its
    per-task machinery are the same code as the serial path.
-/

/-- checkpoint_manager.py `TaskStatus`. -/
inductive TaskStatus
  | pending
  | in_progress
  | completed
  | failed
  | skipped
deriving DecidableEq, Repr

/-- checkpoint_manager.py `BatchStatus`; the source's `PARTIAL` member is
spelled `partial_` here. -/
inductive BatchStatus
  | pending
  | in_progress
  | completed
  | partial_
  | failed
deriving DecidableEq, Repr

/-- checkpoint_manager.py `TaskState`. -/
structure TaskState where
  task_id : String
  name : String
  executor : String
  status : TaskStatus
  output_file : Option String := none
  error_message : Option String := none
  start_time : Option Nat := none
  end_time : Option Nat := none
  retry_count : Nat := 0
  result : Option String := none
deriving DecidableEq, Repr

/-- checkpoint_manager.py `BatchState`. -/
structure BatchState where
  batch_id : Int
  name : String
  batch_type : String
  status : BatchStatus
  tasks : List TaskState := []
  start_time : Option Nat := none
  end_time : Option Nat := none
deriving DecidableEq, Repr

/-- One entry of the checkpoint's `error_log`. -/
structure ErrorLogEntry where
  task_id : String
  error : String
  timestamp : Nat
deriving DecidableEq, Repr

/-- checkpoint_manager.py `ExecutionCheckpoint`.  The opaque `config` dict is
modelled as an association list; `execution_id` is the opaque run
identifier. -/
structure ExecutionCheckpoint where
  feature_name : String
  version : String := "1.0.0"
  spec_completed : Bool := false
  current_batch : Int := 0
  total_batches : Nat := 0
  batches : List BatchState := []
  created_at : Nat
  updated_at : Nat
  execution_id : String := ""
  config : List (String × String) := []
  error_log : List ErrorLogEntry := []
deriving DecidableEq, Repr

/-- Python truthiness of an optional string: `None` and `""` are falsy. -/
def truthy : Option String → Bool
  | none => false
  | some s => s ≠ ""

/-- One task entry of the `batches_config` argument of `create_checkpoint`. -/
structure TaskSpec where
  id : String
  name : String
  executor : String
  output_file : Option String := none
deriving DecidableEq, Repr

/-- One batch entry of the `batches_config` argument of `create_checkpoint`;
`batch_type` is the dict's `"type"` key, defaulted to `"serial"`. -/
structure BatchSpec where
  id : Int
  name : String
  batch_type : String := "serial"
  tasks : List TaskSpec := []
deriving DecidableEq, Repr

/-- The pending `TaskState` that `create_checkpoint` builds from a spec. -/
def initTask (t : TaskSpec) : TaskState :=
  { task_id := t.id
    name := t.name
    executor := t.executor
    status := TaskStatus.pending
    output_file := t.output_file }

/-- The pending `BatchState` that `create_checkpoint` builds from a spec. -/
def initBatch (b : BatchSpec) : BatchState :=
  { batch_id := b.id
    name := b.name
    batch_type := b.batch_type
    status := BatchStatus.pending
    tasks := b.tasks.map initTask }

/-- `CheckpointManager.save_checkpoint`: refreshes `updated_at` and replaces
the whole persisted document. -/
def save_checkpoint (now : Nat) (cp : ExecutionCheckpoint) : ExecutionCheckpoint :=
  { cp with updated_at := now }

/-- `CheckpointManager.create_checkpoint`: builds the full pending tree and
persists it.  The source's md5-of-clock `execution_id` is modelled as an
opaque function of the clock. -/
def create_checkpoint (now : Nat) (feature_name : String)
    (batches_config : List BatchSpec) : ExecutionCheckpoint :=
  save_checkpoint now
    { feature_name := feature_name
      total_batches := batches_config.length
      batches := batches_config.map initBatch
      created_at := now
      updated_at := now
      execution_id := toString now }

/-- The per-task mutation of `CheckpointManager.update_task_status`, lines
249-262 of checkpoint_manager.py (without the `error_log` append, which lives
on the checkpoint): set the status, `start_time` on entry to in_progress,
`end_time` on completed or failed, and overwrite `error_message` / `result`
when the arguments are truthy. -/
def applyTaskUpdate (now : Nat) (status : TaskStatus)
    (error_message result : Option String) (t : TaskState) : TaskState :=
  { t with
    status := status
    start_time := if status = TaskStatus.in_progress then some now else t.start_time
    end_time :=
      if status = TaskStatus.completed ∨ status = TaskStatus.failed then some now
      else t.end_time
    error_message := if truthy error_message then error_message else t.error_message
    result := if truthy result then result else t.result }

/-- The inner `for task in batch.tasks` loop: update the first task carrying
`task_id`, or `none` when the list has no such task. -/
def updateFirstTask (now : Nat) (task_id : String) (status : TaskStatus)
    (error_message result : Option String) : List TaskState → Option (List TaskState)
  | [] => none
  | t :: ts =>
    if t.task_id = task_id then
      some (applyTaskUpdate now status error_message result t :: ts)
    else
      (updateFirstTask now task_id status error_message result ts).map (t :: ·)

/-- The outer `for batch in checkpoint.batches` loop of `update_task_status`:
linearly locate the task across all batches. -/
def updateFirstBatchTask (now : Nat) (task_id : String) (status : TaskStatus)
    (error_message result : Option String) : List BatchState → Option (List BatchState)
  | [] => none
  | b :: bs =>
    match updateFirstTask now task_id status error_message result b.tasks with
    | some ts => some ({ b with tasks := ts } :: bs)
    | none =>
      (updateFirstBatchTask now task_id status error_message result bs).map (b :: ·)

/-- `CheckpointManager.update_task_status`: load, locate the task, apply the
transition, append to `error_log` when an error is supplied, re-save the whole
document.  Returns the source's boolean together with the new store. -/
def update_task_status (now : Nat) (store : Option ExecutionCheckpoint)
    (task_id : String) (status : TaskStatus)
    (error_message : Option String) (result : Option String) :
    Bool × Option ExecutionCheckpoint :=
  match store with
  | none => (false, none)
  | some cp =>
    match updateFirstBatchTask now task_id status error_message result cp.batches with
    | none => (false, some cp)
    | some bs =>
      let cp' : ExecutionCheckpoint :=
        { cp with
          batches := bs
          error_log :=
            if truthy error_message then
              cp.error_log ++ [⟨task_id, error_message.getD "", now⟩]
            else cp.error_log }
      (true, some (save_checkpoint now cp'))

/-- The `for batch in checkpoint.batches` loop of `update_batch_status`:
update the first batch carrying `batch_id`.  Entering in_progress sets
`start_time`; completed, failed or partial set `end_time`. -/
def updateFirstBatch (now : Nat) (batch_id : Int) (status : BatchStatus) :
    List BatchState → Option (List BatchState)
  | [] => none
  | b :: bs =>
    if b.batch_id = batch_id then
      some
        ({ b with
            status := status
            start_time := if status = BatchStatus.in_progress then some now else b.start_time
            end_time :=
              if status = BatchStatus.completed ∨ status = BatchStatus.failed ∨
                  status = BatchStatus.partial_ then some now
              else b.end_time } :: bs)
    else
      (updateFirstBatch now batch_id status bs).map (b :: ·)

/-- `CheckpointManager.update_batch_status`; entering in_progress also moves
the checkpoint's `current_batch` pointer. -/
def update_batch_status (now : Nat) (store : Option ExecutionCheckpoint)
    (batch_id : Int) (status : BatchStatus) : Bool × Option ExecutionCheckpoint :=
  match store with
  | none => (false, none)
  | some cp =>
    match updateFirstBatch now batch_id status cp.batches with
    | none => (false, some cp)
    | some bs =>
      let cp' : ExecutionCheckpoint :=
        { cp with
          batches := bs
          current_batch :=
            if status = BatchStatus.in_progress then batch_id else cp.current_batch }
      (true, some (save_checkpoint now cp'))

/-- The batch filter of `get_resume_point`: `status in [PENDING, IN_PROGRESS,
PARTIAL]`. -/
def batchResumable (b : BatchState) : Bool :=
  match b.status with
  | BatchStatus.pending => true
  | BatchStatus.in_progress => true
  | BatchStatus.partial_ => true
  | _ => false

/-- The task filter for `incomplete_tasks`: `status in [PENDING, FAILED]`. -/
def taskRedo (t : TaskState) : Bool :=
  match t.status with
  | TaskStatus.pending => true
  | TaskStatus.failed => true
  | _ => false

/-- The task filter for `completed_tasks`: `status == COMPLETED`. -/
def taskDone (t : TaskState) : Bool :=
  match t.status with
  | TaskStatus.completed => true
  | _ => false

/-- One entry of a resume point's `incomplete_tasks`. -/
structure ResumeTask where
  id : String
  name : String
  executor : String
deriving DecidableEq, Repr

/-- The dict returned by `get_resume_point`. -/
structure ResumePoint where
  batch_id : Int
  batch_name : String
  incomplete_tasks : List ResumeTask
  completed_tasks : List String
deriving DecidableEq, Repr

/-- The resume-point dict built for one batch. -/
def mkResumePoint (b : BatchState) : ResumePoint :=
  { batch_id := b.batch_id
    batch_name := b.name
    incomplete_tasks :=
      (b.tasks.filter taskRedo).map fun t => ⟨t.task_id, t.name, t.executor⟩
    completed_tasks := (b.tasks.filter taskDone).map (·.task_id) }

/-- The batch scan of `get_resume_point`: first batch whose status is pending,
in_progress or partial. -/
def resumeScan : List BatchState → Option ResumePoint
  | [] => none
  | b :: bs => if batchResumable b then some (mkResumePoint b) else resumeScan bs

/-- `CheckpointManager.get_resume_point`. -/
def get_resume_point (store : Option ExecutionCheckpoint) : Option ResumePoint :=
  match store with
  | none => none
  | some cp => resumeScan cp.batches

/-- First task carrying `task_id` in a task list (same traversal order as
`update_task_status`); a helper for stating theorems. -/
def findTaskInList (task_id : String) : List TaskState → Option TaskState
  | [] => none
  | t :: ts => if t.task_id = task_id then some t else findTaskInList task_id ts

/-- First task carrying `task_id` across all batches, in the linear order that
`update_task_status` scans; a helper for stating theorems. -/
def findTaskInBatches (task_id : String) : List BatchState → Option TaskState
  | [] => none
  | b :: bs =>
    match findTaskInList task_id b.tasks with
    | some t => some t
    | none => findTaskInBatches task_id bs

/-! Execution engine (src/lib/execution_engine.py). -/

/-- execution_engine.py `ExecutionResult`. -/
inductive ExecutionResult
  | success
  | failed
  | skipped
  | cancelled
  | timeout
deriving DecidableEq, Repr

/-- execution_engine.py `TaskResult` (the wall-clock `duration_seconds` field
is not modelled). -/
structure TaskResult where
  task_id : String
  task_name : String
  executor : String
  result : ExecutionResult
  output : Option String := none
  error : Option String := none
  retry_count : Nat := 0
deriving DecidableEq, Repr

/-- execution_engine.py `BatchResult` (without `duration_seconds`). -/
structure BatchResult where
  batch_id : Int
  batch_name : String
  batch_type : String
  task_results : List TaskResult := []
  status : BatchStatus := BatchStatus.pending
deriving DecidableEq, Repr

/-- `BatchResult.success_count`. -/
def BatchResult.success_count (r : BatchResult) : Nat :=
  r.task_results.countP fun t => t.result == ExecutionResult.success

/-- `BatchResult.failed_count`. -/
def BatchResult.failed_count (r : BatchResult) : Nat :=
  r.task_results.countP fun t => t.result == ExecutionResult.failed

/-- `BatchResult.skipped_count`. -/
def BatchResult.skipped_count (r : BatchResult) : Nat :=
  r.task_results.countP fun t => t.result == ExecutionResult.skipped

/-- config_manager.py `ErrorStrategy`. -/
inductive ErrorStrategy
  | retry
  | skip
  | fail_fast
  | ask
deriving DecidableEq, Repr

/-- The decisions `_handle_error` and the error-decision callback produce; the
source passes them as the strings `"retry"`, `"skip"` and `"abort"`.  The
embedding closes the type: a callback returning any other string would make
the source's `execute_task` loop re-run the failed attempt forever without
advancing `retry_count`. -/
inductive ErrorDecision
  | retry
  | skip
  | abort
deriving DecidableEq, Repr

/-- The fields of config_manager.py `ExecutionConfig` that the engine reads;
`retry_delay_seconds`, `task_timeout_minutes` and `max_parallel_tasks` are
pure timing / pool-sizing knobs with no effect on the modelled state. -/
structure ExecutionConfig where
  max_retries : Nat := 3
  error_strategy : ErrorStrategy := ErrorStrategy.ask
deriving DecidableEq, Repr

/-- The engine's identity, configuration and registered callbacks.  The
error-decision callback receives `(task_id, task_name, error_message)`;
`has_task_complete` records whether an `_on_task_complete` callback is
registered. -/
structure Engine where
  feature_name : String
  config : ExecutionConfig
  on_error_decision : Option (String → String → String → ErrorDecision) := none
  has_task_complete : Bool := true

/-- The engine's mutable execution state: the cooperative cancellation flag
and the persisted checkpoint store it drives. -/
structure EngineState where
  cancelled : Bool
  store : Option ExecutionCheckpoint
deriving Repr

/-- Observable engine actions recorded by the model: one `attempt` per
invocation of the work function, one `persistTask` / `persistBatch` per
checkpoint-store status update, and one `taskReport` / `batchReport` per
completion-callback invocation. -/
inductive EngineEvent
  | attempt (task_id : String) (n : Nat)
  | persistTask (task_id : String) (status : TaskStatus)
  | persistBatch (batch_id : Int) (status : BatchStatus)
  | taskReport (r : TaskResult)
  | batchReport (r : BatchResult)
deriving DecidableEq, Repr

/-- `ExecutionEngine._handle_error`: the pure error-strategy resolution. -/
def handle_error (strategy : ErrorStrategy) (retry_count max_retries : Nat)
    (on_error_decision : Option (String → String → String → ErrorDecision))
    (task_id task_name error : String) : ErrorDecision :=
  match strategy with
  | ErrorStrategy.retry =>
    if retry_count < max_retries then ErrorDecision.retry else ErrorDecision.skip
  | ErrorStrategy.skip => ErrorDecision.skip
  | ErrorStrategy.fail_fast => ErrorDecision.abort
  | ErrorStrategy.ask =>
    match on_error_decision with
    | some cb => cb task_id task_name error
    | none =>
      if retry_count < max_retries then ErrorDecision.retry else ErrorDecision.skip

/-- The `CANCELLED` result built at the loop head of `execute_task`. -/
def mkCancelledResult (task_id task_name executor : String) (retry_count : Nat) :
    TaskResult :=
  { task_id := task_id
    task_name := task_name
    executor := executor
    result := ExecutionResult.cancelled
    error := some "Execution cancelled by user"
    retry_count := retry_count }

/-- The skip branch of `execute_task`: persist `SKIPPED` with the last error
and report the result. -/
def skipOutcome (eng : Engine) (now : Nat) (task_id task_name executor : String)
    (last_error : String) (retry_count : Nat) (st : EngineState) :
    TaskResult × EngineState × List EngineEvent :=
  let tr : TaskResult :=
    { task_id := task_id
      task_name := task_name
      executor := executor
      result := ExecutionResult.skipped
      error := some last_error
      retry_count := retry_count }
  let store :=
    (update_task_status now st.store task_id TaskStatus.skipped (some last_error) none).2
  (tr, { st with store := store },
    [EngineEvent.persistTask task_id TaskStatus.skipped] ++
      (if eng.has_task_complete then [EngineEvent.taskReport tr] else []))

/-- The failed-after-all-retries tail of `execute_task`: persist `FAILED` with
the last error and report the result. -/
def failedOutcome (eng : Engine) (now : Nat) (task_id task_name executor : String)
    (last_error : String) (retry_count : Nat) (st : EngineState) :
    TaskResult × EngineState × List EngineEvent :=
  let tr : TaskResult :=
    { task_id := task_id
      task_name := task_name
      executor := executor
      result := ExecutionResult.failed
      error := some last_error
      retry_count := retry_count }
  let store :=
    (update_task_status now st.store task_id TaskStatus.failed (some last_error) none).2
  (tr, { st with store := store },
    [EngineEvent.persistTask task_id TaskStatus.failed] ++
      (if eng.has_task_complete then [EngineEvent.taskReport tr] else []))

/-- One iteration of the `while retry_count <= max_retries` loop of
`execute_task`: the cancellation check, one invocation of the work function,
and the decision branches.  `onRetry` is what the `retry` decision does
next — re-enter the loop, or (when the bound is exhausted) fall through to
the failed tail. -/
def execTaskIter (eng : Engine) (now : Nat) (task_id task_name executor : String)
    (work : Nat → Except String (Option String)) (st : EngineState)
    (retry_count : Nat)
    (onRetry : String → TaskResult × EngineState × List EngineEvent) :
    TaskResult × EngineState × List EngineEvent :=
    if st.cancelled then
      (mkCancelledResult task_id task_name executor retry_count, st, [])
    else
      match work retry_count with
      | Except.ok output =>
        let tr : TaskResult :=
          { task_id := task_id
            task_name := task_name
            executor := executor
            result := ExecutionResult.success
            output := output
            retry_count := retry_count }
        let store :=
          (update_task_status now st.store task_id TaskStatus.completed none output).2
        (tr, { st with store := store },
          [EngineEvent.attempt task_id retry_count,
            EngineEvent.persistTask task_id TaskStatus.completed] ++
            (if eng.has_task_complete then [EngineEvent.taskReport tr] else []))
      | Except.error e =>
        match handle_error eng.config.error_strategy retry_count eng.config.max_retries
            eng.on_error_decision task_id task_name e with
        | ErrorDecision.retry =>
          let r := onRetry e
          (r.1, r.2.1, EngineEvent.attempt task_id retry_count :: r.2.2)
        | ErrorDecision.skip =>
          let r := skipOutcome eng now task_id task_name executor e retry_count st
          (r.1, r.2.1, EngineEvent.attempt task_id retry_count :: r.2.2)
        | ErrorDecision.abort =>
          let r :=
            failedOutcome eng now task_id task_name executor e retry_count
              { st with cancelled := true }
          (r.1, r.2.1, EngineEvent.attempt task_id retry_count :: r.2.2)

/-- The `while retry_count <= max_retries` loop of `execute_task`.  `fuel` is
`max_retries - retry_count`: the `retry` decision re-enters the loop exactly
when the incremented count still satisfies the loop bound (`fuel > 0`), and
otherwise falls through to the failed tail with the incremented count. -/
def execTaskLoop (eng : Engine) (now : Nat) (task_id task_name executor : String)
    (work : Nat → Except String (Option String)) (st : EngineState)
    (retry_count : Nat) : Nat → TaskResult × EngineState × List EngineEvent
  | 0 =>
    execTaskIter eng now task_id task_name executor work st retry_count
      (fun e => failedOutcome eng now task_id task_name executor e (retry_count + 1) st)
  | fuel + 1 =>
    execTaskIter eng now task_id task_name executor work st retry_count
      (fun _ => execTaskLoop eng now task_id task_name executor work st
        (retry_count + 1) fuel)

/-- `ExecutionEngine.execute_task`: persist `IN_PROGRESS`, then run the
retry loop. -/
def execute_task (eng : Engine) (now : Nat) (task_id task_name executor : String)
    (work : Nat → Except String (Option String)) (st : EngineState) :
    TaskResult × EngineState × List EngineEvent :=
  let store :=
    (update_task_status now st.store task_id TaskStatus.in_progress none none).2
  let r :=
    execTaskLoop eng now task_id task_name executor work { st with store := store } 0
      eng.config.max_retries
  (r.1, r.2.1, EngineEvent.persistTask task_id TaskStatus.in_progress :: r.2.2)

/-- The batch-status derivation shared verbatim by `execute_batch_serial`
(lines 442-449) and `execute_batch_parallel` (lines 554-561). -/
def deriveBatchStatus (cancelled : Bool) (r : BatchResult) : BatchStatus :=
  if cancelled then BatchStatus.partial_
  else if r.failed_count = 0 then BatchStatus.completed
  else if r.success_count = 0 then BatchStatus.failed
  else BatchStatus.partial_

/-- The `for task in tasks` loop of `execute_batch_serial`: break on the
cancellation flag before each task, and break after a failed task under the
fail_fast strategy. -/
def serialLoop (eng : Engine) (now : Nat)
    (work : TaskSpec → Nat → Except String (Option String)) :
    List TaskSpec → EngineState → List TaskResult × EngineState × List EngineEvent
  | [], st => ([], st, [])
  | t :: ts, st =>
    if st.cancelled then ([], st, [])
    else
      let r := execute_task eng now t.id t.name t.executor (work t) st
      if r.1.result = ExecutionResult.failed ∧
          eng.config.error_strategy = ErrorStrategy.fail_fast then
        ([r.1], r.2.1, r.2.2)
      else
        let rest := serialLoop eng now work ts r.2.1
        (r.1 :: rest.1, rest.2.1, r.2.2 ++ rest.2.2)

/-- `ExecutionEngine.execute_batch_serial`. -/
def execute_batch_serial (eng : Engine) (now : Nat) (batch_id : Int)
    (batch_name : String) (tasks : List TaskSpec)
    (work : TaskSpec → Nat → Except String (Option String)) (st : EngineState) :
    BatchResult × EngineState × List EngineEvent :=
  let st0 : EngineState :=
    { st with store := (update_batch_status now st.store batch_id BatchStatus.in_progress).2 }
  let lr := serialLoop eng now work tasks st0
  let br0 : BatchResult :=
    { batch_id := batch_id
      batch_name := batch_name
      batch_type := "serial"
      task_results := lr.1 }
  let status := deriveBatchStatus lr.2.1.cancelled br0
  let br : BatchResult := { br0 with status := status }
  let st2 : EngineState :=
    { lr.2.1 with store := (update_batch_status now lr.2.1.store batch_id status).2 }
  (br, st2,
    [EngineEvent.persistBatch batch_id BatchStatus.in_progress] ++ lr.2.2 ++
      [EngineEvent.persistBatch batch_id status, EngineEvent.batchReport br])

/-- The parallel path's task processing at the modelled schedule (submission
order, one at a time, which a single-worker pool realises): the cancellation
flag both stops further submissions and drops uncollected results, so both
checks collapse to one break before each task; there is no fail_fast break
inside a parallel batch. -/
def parallelLoop (eng : Engine) (now : Nat)
    (work : TaskSpec → Nat → Except String (Option String)) :
    List TaskSpec → EngineState → List TaskResult × EngineState × List EngineEvent
  | [], st => ([], st, [])
  | t :: ts, st =>
    if st.cancelled then ([], st, [])
    else
      let r := execute_task eng now t.id t.name t.executor (work t) st
      let rest := parallelLoop eng now work ts r.2.1
      (r.1 :: rest.1, rest.2.1, r.2.2 ++ rest.2.2)

/-- `ExecutionEngine.execute_batch_parallel` at the modelled schedule; its
status derivation is identical to the serial case. -/
def execute_batch_parallel (eng : Engine) (now : Nat) (batch_id : Int)
    (batch_name : String) (tasks : List TaskSpec)
    (work : TaskSpec → Nat → Except String (Option String)) (st : EngineState) :
    BatchResult × EngineState × List EngineEvent :=
  let st0 : EngineState :=
    { st with store := (update_batch_status now st.store batch_id BatchStatus.in_progress).2 }
  let lr := parallelLoop eng now work tasks st0
  let br0 : BatchResult :=
    { batch_id := batch_id
      batch_name := batch_name
      batch_type := "parallel"
      task_results := lr.1 }
  let status := deriveBatchStatus lr.2.1.cancelled br0
  let br : BatchResult := { br0 with status := status }
  let st2 : EngineState :=
    { lr.2.1 with store := (update_batch_status now lr.2.1.store batch_id status).2 }
  (br, st2,
    [EngineEvent.persistBatch batch_id BatchStatus.in_progress] ++ lr.2.2 ++
      [EngineEvent.persistBatch batch_id status, EngineEvent.batchReport br])

/-- The per-batch dispatch of `execute_all_batches`: `batch.get("type",
"serial") == "parallel"` chooses the parallel path. -/
def dispatchBatch (eng : Engine) (now : Nat) (b : BatchSpec)
    (work : TaskSpec → Nat → Except String (Option String)) (st : EngineState) :
    BatchResult × EngineState × List EngineEvent :=
  if b.batch_type = "parallel" then
    execute_batch_parallel eng now b.id b.name b.tasks work st
  else
    execute_batch_serial eng now b.id b.name b.tasks work st

/-- The resume-point arithmetic of `execute_all_batches`: `start_batch` is 0,
overwritten with `resume_point["batch_id"] - 1` when a resume point exists. -/
def resume_start_batch (store : Option ExecutionCheckpoint) : Int :=
  match get_resume_point store with
  | some rp => rp.batch_id - 1
  | none => 0

/-- The `for i, batch in enumerate(batches)` loop of `execute_all_batches`:
positions below `start_batch` are skipped with `continue`, the cancellation
flag breaks before a batch, and a `FAILED` batch under fail_fast breaks after
it. -/
def batchesLoop (eng : Engine) (now : Nat)
    (work : TaskSpec → Nat → Except String (Option String)) (start_batch : Int)
    (i : Nat) : List BatchSpec → EngineState →
      List BatchResult × EngineState × List EngineEvent
  | [], st => ([], st, [])
  | b :: rest, st =>
    if (i : Int) < start_batch then batchesLoop eng now work start_batch (i + 1) rest st
    else if st.cancelled then ([], st, [])
    else
      let r := dispatchBatch eng now b work st
      if r.1.status = BatchStatus.failed ∧
          eng.config.error_strategy = ErrorStrategy.fail_fast then
        ([r.1], r.2.1, r.2.2)
      else
        let rest' := batchesLoop eng now work start_batch (i + 1) rest r.2.1
        (r.1 :: rest'.1, rest'.2.1, r.2.2 ++ rest'.2.2)

/-- `ExecutionEngine.execute_all_batches`: load the existing checkpoint when
resuming (else create a fresh one, which also happens when resuming finds
none), compute the start position from the resume point, and run the batch
loop. -/
def execute_all_batches (eng : Engine) (now : Nat) (batches : List BatchSpec)
    (work : TaskSpec → Nat → Except String (Option String)) (resume : Bool)
    (st : EngineState) : List BatchResult × EngineState × List EngineEvent :=
  let loaded := if resume then st.store else none
  let store :=
    match loaded with
    | some cp => some cp
    | none => some (create_checkpoint now eng.feature_name batches)
  let st0 : EngineState := { st with store := store }
  let start_batch : Int := if resume then resume_start_batch st0.store else 0
  batchesLoop eng now work start_batch 0 batches st0

/-! Concrete fixtures used by counterexamples and witnesses. -/

/-- A one-task spec, as in the source's self-test. -/
def taskSpec11 : TaskSpec := { id := "1.1", name := "T", executor := "x" }

/-- A one-batch spec around `taskSpec11`. -/
def batchSpec1 : BatchSpec := { id := 1, name := "B1", tasks := [taskSpec11] }

/-- The fresh checkpoint for `batchSpec1`, created at instant 0. -/
def cp0 : ExecutionCheckpoint := create_checkpoint 0 "f" [batchSpec1]

/-- An engine configured with the `skip` strategy. -/
def engSkip : Engine :=
  { feature_name := "f"
    config := { max_retries := 0, error_strategy := ErrorStrategy.skip } }

/-- An engine configured with strategy `retry` and `max_retries = 2`. -/
def engRetry2 : Engine :=
  { feature_name := "f"
    config := { max_retries := 2, error_strategy := ErrorStrategy.retry } }

/-- The task of `taskSpec11` in completed state. -/
def taskDoneState : TaskState :=
  { task_id := "1.1", name := "T", executor := "x", status := TaskStatus.completed,
    end_time := some 1, result := some "ok" }

/-- A stored checkpoint in which every batch (and task) is completed. -/
def cpDone : ExecutionCheckpoint :=
  { feature_name := "f", total_batches := 1,
    batches := [{ batch_id := 1, name := "B1", batch_type := "serial",
                  status := BatchStatus.completed, tasks := [taskDoneState],
                  end_time := some 1 }],
    created_at := 0, updated_at := 1 }

/-- A stored checkpoint whose single batch is failed. -/
def cpFailedBatch : ExecutionCheckpoint :=
  { feature_name := "f", total_batches := 1,
    batches := [{ batch_id := 1, name := "B1", batch_type := "serial",
                  status := BatchStatus.failed, tasks := [taskDoneState],
                  end_time := some 1 }],
    created_at := 0, updated_at := 1 }

/-- The spec's resume example: batches `[A:completed, B:partial, C:pending]`,
batch B holding one completed, one failed and one pending task. -/
def cpResumeExample : ExecutionCheckpoint :=
  { feature_name := "f", total_batches := 3,
    batches :=
      [{ batch_id := 1, name := "A", batch_type := "serial",
         status := BatchStatus.completed, tasks := [taskDoneState], end_time := some 1 },
       { batch_id := 2, name := "B", batch_type := "serial",
         status := BatchStatus.partial_,
         tasks :=
           [{ task_id := "2.1", name := "T21", executor := "x",
              status := TaskStatus.completed, end_time := some 1 },
            { task_id := "2.2", name := "T22", executor := "x",
              status := TaskStatus.failed, end_time := some 1 },
            { task_id := "2.3", name := "T23", executor := "x",
              status := TaskStatus.pending }] },
       { batch_id := 3, name := "C", batch_type := "serial",
         status := BatchStatus.pending,
         tasks := [{ task_id := "3.1", name := "T31", executor := "x",
                     status := TaskStatus.pending }] }],
    created_at := 0, updated_at := 1 }

/-! Helper lemmas: locating a task commutes with `update_task_status`'s
linear scan. -/

theorem applyTaskUpdate_task_id (now : Nat) (s : TaskStatus) (e r : Option String)
    (t : TaskState) : (applyTaskUpdate now s e r t).task_id = t.task_id := rfl

theorem updateFirstTask_eq_none_iff (now : Nat) (tid : String) (s : TaskStatus)
    (e r : Option String) :
    ∀ ts : List TaskState,
      updateFirstTask now tid s e r ts = none ↔ findTaskInList tid ts = none
  | [] => by simp [updateFirstTask, findTaskInList]
  | t :: ts => by
    by_cases h : t.task_id = tid
    · simp [updateFirstTask, findTaskInList, h]
    · simp [updateFirstTask, findTaskInList, h, Option.map_eq_none',
        updateFirstTask_eq_none_iff now tid s e r ts]

theorem updateFirstTask_of_find (now : Nat) (tid : String) (s : TaskStatus)
    (e r : Option String) :
    ∀ (ts : List TaskState) (t : TaskState), findTaskInList tid ts = some t →
      ∃ ts', updateFirstTask now tid s e r ts = some ts' ∧
        findTaskInList tid ts' = some (applyTaskUpdate now s e r t)
  | [], t => by simp [findTaskInList]
  | u :: ts, t => by
    by_cases h : u.task_id = tid
    · intro hfind
      simp only [findTaskInList, h, if_pos, Option.some.injEq] at hfind
      subst hfind
      refine ⟨applyTaskUpdate now s e r u :: ts, ?_, ?_⟩
      · simp [updateFirstTask, h]
      · simp [findTaskInList, applyTaskUpdate_task_id, h]
    · intro hfind
      simp only [findTaskInList, h, if_neg, not_false_iff] at hfind
      obtain ⟨ts', h1, h2⟩ := updateFirstTask_of_find now tid s e r ts t hfind
      refine ⟨u :: ts', ?_, ?_⟩
      · simp [updateFirstTask, h, h1]
      · simp [findTaskInList, h, h2]

theorem updateFirstBatchTask_eq_none_iff (now : Nat) (tid : String) (s : TaskStatus)
    (e r : Option String) :
    ∀ bs : List BatchState,
      updateFirstBatchTask now tid s e r bs = none ↔ findTaskInBatches tid bs = none
  | [] => by simp [updateFirstBatchTask, findTaskInBatches]
  | b :: bs => by
    rcases hfind : findTaskInList tid b.tasks with _ | t
    · have hupd : updateFirstTask now tid s e r b.tasks = none :=
        (updateFirstTask_eq_none_iff now tid s e r b.tasks).mpr hfind
      simp [updateFirstBatchTask, findTaskInBatches, hfind, hupd, Option.map_eq_none',
        updateFirstBatchTask_eq_none_iff now tid s e r bs]
    · obtain ⟨ts', h1, _⟩ := updateFirstTask_of_find now tid s e r b.tasks t hfind
      simp [updateFirstBatchTask, findTaskInBatches, hfind, h1]

theorem updateFirstBatchTask_of_find (now : Nat) (tid : String) (s : TaskStatus)
    (e r : Option String) :
    ∀ (bs : List BatchState) (t : TaskState), findTaskInBatches tid bs = some t →
      ∃ bs', updateFirstBatchTask now tid s e r bs = some bs' ∧
        findTaskInBatches tid bs' = some (applyTaskUpdate now s e r t)
  | [], t => by simp [findTaskInBatches]
  | b :: bs, t => by
    intro hfind
    rcases hfindb : findTaskInList tid b.tasks with _ | u
    · have hupd : updateFirstTask now tid s e r b.tasks = none :=
        (updateFirstTask_eq_none_iff now tid s e r b.tasks).mpr hfindb
      simp only [findTaskInBatches, hfindb] at hfind
      obtain ⟨bs', h1, h2⟩ := updateFirstBatchTask_of_find now tid s e r bs t hfind
      refine ⟨b :: bs', ?_, ?_⟩
      · simp [updateFirstBatchTask, hupd, h1]
      · simp [findTaskInBatches, hfindb, h2]
    · rw [findTaskInBatches, hfindb] at hfind
      obtain rfl : u = t := Option.some.inj hfind
      obtain ⟨ts', h1, h2⟩ := updateFirstTask_of_find now tid s e r b.tasks _ hfindb
      refine ⟨{ b with tasks := ts' } :: bs, ?_, ?_⟩
      · simp [updateFirstBatchTask, h1]
      · simp [findTaskInBatches, h2]

/-! Claim C7: error-strategy resolution. -/

/-- C7 (confirmed): `_handle_error` is the pure resolution function
`(strategy, retry_count, max_retries, optional decision callback) → decision`:
strategy retry yields retry exactly while `retry_count < max_retries` and skip
after; strategy skip always yields skip; strategy fail_fast always yields
abort; strategy ask returns the registered callback's answer, and with no
callback behaves exactly like strategy retry. -/
theorem C7_handle_error_resolution :
    ∀ (rc mr : Nat) (cb : Option (String → String → String → ErrorDecision))
      (f : String → String → String → ErrorDecision) (tid tname e : String),
      handle_error ErrorStrategy.retry rc mr cb tid tname e =
        (if rc < mr then ErrorDecision.retry else ErrorDecision.skip) ∧
      handle_error ErrorStrategy.skip rc mr cb tid tname e = ErrorDecision.skip ∧
      handle_error ErrorStrategy.fail_fast rc mr cb tid tname e = ErrorDecision.abort ∧
      handle_error ErrorStrategy.ask rc mr (some f) tid tname e = f tid tname e ∧
      handle_error ErrorStrategy.ask rc mr none tid tname e =
        handle_error ErrorStrategy.retry rc mr none tid tname e :=
  fun _ _ _ _ _ _ _ => ⟨rfl, rfl, rfl, rfl, rfl⟩

/-! Claim C4: `end_time` versus terminal statuses. -/

/-- C4 counterexample: driving the fresh task of `cp0` to the terminal status
`skipped` persists a task whose status is terminal but whose `end_time` is
still unset, so "`end_time` is set iff the status is terminal" fails. -/
theorem C4_counterexample_skipped_leaves_end_time_unset :
    ((update_task_status 5 (some cp0) "1.1" TaskStatus.skipped none none).2.bind
        (fun cp => findTaskInBatches "1.1" cp.batches)).map
        (fun t => (t.status, t.end_time)) = some (TaskStatus.skipped, none) := by
  decide

/-- C4 (amended): `update_task_status` sets the located task's `end_time`
exactly when the new status is completed or failed; a transition to the
terminal status skipped leaves `end_time` unchanged (so a task that ends
skipped without ever being completed/failed has no `end_time`). -/
theorem C4_end_time_exactly_on_completed_or_failed :
    ∀ (now : Nat) (cp : ExecutionCheckpoint) (tid : String) (status : TaskStatus)
      (err res : Option String) (t : TaskState),
      findTaskInBatches tid cp.batches = some t →
      ∃ cp', update_task_status now (some cp) tid status err res = (true, some cp') ∧
        findTaskInBatches tid cp'.batches = some (applyTaskUpdate now status err res t) ∧
        (applyTaskUpdate now status err res t).end_time =
          (if status = TaskStatus.completed ∨ status = TaskStatus.failed then some now
           else t.end_time) := by
  intro now cp tid status err res t hfind
  obtain ⟨bs', h1, h2⟩ :=
    updateFirstBatchTask_of_find now tid status err res cp.batches t hfind
  refine ⟨save_checkpoint now
      { cp with
        batches := bs'
        error_log :=
          if truthy err then cp.error_log ++ [⟨tid, err.getD "", now⟩]
          else cp.error_log },
    ?_, ?_, rfl⟩
  · simp [update_task_status, h1]
  · simpa [save_checkpoint] using h2

/-- C4 witness: the amended theorem applied to the fresh checkpoint `cp0`. -/
theorem C4_witness :
    findTaskInBatches "1.1" cp0.batches = some (initTask taskSpec11) ∧
    ∃ cp', update_task_status 5 (some cp0) "1.1" TaskStatus.skipped none none =
        (true, some cp') ∧
      findTaskInBatches "1.1" cp'.batches =
        some (applyTaskUpdate 5 TaskStatus.skipped none none (initTask taskSpec11)) ∧
      (applyTaskUpdate 5 TaskStatus.skipped none none (initTask taskSpec11)).end_time =
        (if TaskStatus.skipped = TaskStatus.completed ∨
            TaskStatus.skipped = TaskStatus.failed then some 5
         else (initTask taskSpec11).end_time) :=
  ⟨by decide,
    C4_end_time_exactly_on_completed_or_failed 5 cp0 "1.1" TaskStatus.skipped none none
      (initTask taskSpec11) (by decide)⟩

/-! Claim C5: the resume point. -/

theorem batchResumable_false_iff (b : BatchState) :
    batchResumable b = false ↔
      b.status = BatchStatus.completed ∨ b.status = BatchStatus.failed := by
  cases h : b.status <;> simp [batchResumable, h]

theorem resumeScan_eq_none_iff :
    ∀ bs : List BatchState, resumeScan bs = none ↔ ∀ b ∈ bs, batchResumable b = false
  | [] => by simp [resumeScan]
  | b :: bs => by
    by_cases h : batchResumable b = true
    · simp [resumeScan, h]
    · simp only [Bool.not_eq_true] at h
      simp [resumeScan, h, resumeScan_eq_none_iff bs]

theorem resumeScan_eq_some :
    ∀ (bs : List BatchState) (rp : ResumePoint), resumeScan bs = some rp →
      ∃ pre b post, bs = pre ++ b :: post ∧
        (∀ b' ∈ pre, batchResumable b' = false) ∧ batchResumable b = true ∧
        rp = mkResumePoint b
  | [], rp => by simp [resumeScan]
  | b :: bs, rp => by
    intro h
    by_cases hb : batchResumable b = true
    · rw [resumeScan, if_pos hb] at h
      exact ⟨[], b, bs, rfl, by simp, hb, (Option.some.inj h).symm⟩
    · simp only [Bool.not_eq_true] at hb
      rw [resumeScan, if_neg (by simp [hb])] at h
      obtain ⟨pre, c, post, h1, h2, h3, h4⟩ := resumeScan_eq_some bs rp h
      refine ⟨b :: pre, c, post, by simp [h1], ?_, h3, h4⟩
      intro b' hb'
      rcases List.mem_cons.mp hb' with rfl | hb'
      · exact hb
      · exact h2 b' hb'

/-- C5 (amended): `get_resume_point` returns the first batch in list order
whose status is pending, in_progress or partial, with exactly its pending-or-
failed tasks listed as incomplete and exactly its completed tasks listed as
completed; it returns absent if and only if every batch is completed OR
failed (not only when every batch is completed: a remaining failed batch also
yields absent). -/
theorem C5_resume_point_characterisation :
    ∀ cp : ExecutionCheckpoint,
      (get_resume_point (some cp) = none ↔
        ∀ b ∈ cp.batches,
          b.status = BatchStatus.completed ∨ b.status = BatchStatus.failed) ∧
      ∀ rp, get_resume_point (some cp) = some rp →
        ∃ pre b post, cp.batches = pre ++ b :: post ∧
          (∀ b' ∈ pre, batchResumable b' = false) ∧ batchResumable b = true ∧
          rp = mkResumePoint b ∧
          rp.incomplete_tasks =
            (b.tasks.filter taskRedo).map (fun t => ⟨t.task_id, t.name, t.executor⟩) ∧
          rp.completed_tasks = (b.tasks.filter taskDone).map (·.task_id) := by
  intro cp
  constructor
  · simpa [get_resume_point, resumeScan_eq_none_iff] using
      ⟨fun h b hb => (batchResumable_false_iff b).mp (h b hb),
        fun h b hb => (batchResumable_false_iff b).mpr (h b hb)⟩
  · intro rp h
    obtain ⟨pre, b, post, h1, h2, h3, h4⟩ := resumeScan_eq_some cp.batches rp h
    exact ⟨pre, b, post, h1, h2, h3, h4, by rw [h4]; rfl, by rw [h4]; rfl⟩

/-- C5 counterexample: a checkpoint whose single batch is `failed` has no
resume point, yet not every batch is completed — the claim's "absent if and
only if every batch is completed" fails. -/
theorem C5_counterexample_failed_batch_gives_no_resume_point :
    get_resume_point (some cpFailedBatch) = none ∧
    ¬ ∀ b ∈ cpFailedBatch.batches, b.status = BatchStatus.completed := by
  decide

/-- The resume point of `cpResumeExample`, spelled out. -/
def rpExample : ResumePoint :=
  { batch_id := 2
    batch_name := "B"
    incomplete_tasks := [⟨"2.2", "T22", "x"⟩, ⟨"2.3", "T23", "x"⟩]
    completed_tasks := ["2.1"] }

/-- C5 witness: the spec's own example `[A:completed, B:partial, C:pending]`
resumes at B with its failed and pending tasks listed and its completed task
excluded. -/
theorem C5_witness :
    get_resume_point (some cpResumeExample) = some rpExample ∧
    ∃ pre b post, cpResumeExample.batches = pre ++ b :: post ∧
      (∀ b' ∈ pre, batchResumable b' = false) ∧ batchResumable b = true ∧
      rpExample = mkResumePoint b ∧
      rpExample.incomplete_tasks =
        (b.tasks.filter taskRedo).map (fun t => ⟨t.task_id, t.name, t.executor⟩) ∧
      rpExample.completed_tasks = (b.tasks.filter taskDone).map (·.task_id) :=
  ⟨by decide,
    (C5_resume_point_characterisation cpResumeExample).2 rpExample (by decide)⟩

/-! Claim C9: updates against a missing checkpoint, task or batch. -/

theorem updateFirstBatch_eq_none_iff (now : Nat) (bid : Int) (status : BatchStatus) :
    ∀ bs : List BatchState,
      updateFirstBatch now bid status bs = none ↔ ∀ b ∈ bs, b.batch_id ≠ bid
  | [] => by simp [updateFirstBatch]
  | b :: bs => by
    by_cases h : b.batch_id = bid
    · simp [updateFirstBatch, h]
    · simp [updateFirstBatch, h, Option.map_eq_none',
        updateFirstBatch_eq_none_iff now bid status bs]

/-- C9 (confirmed): with no stored checkpoint, or no task (resp. batch)
carrying the given id, `update_task_status` and `update_batch_status` return
`false` and leave the persisted store untouched. -/
theorem C9_missing_checkpoint_or_id_is_noop :
    ∀ (now : Nat) (tid : String) (status : TaskStatus) (err res : Option String)
      (bid : Int) (bstatus : BatchStatus) (cp : ExecutionCheckpoint),
      update_task_status now none tid status err res = (false, none) ∧
      update_batch_status now none bid bstatus = (false, none) ∧
      (findTaskInBatches tid cp.batches = none →
        update_task_status now (some cp) tid status err res = (false, some cp)) ∧
      ((∀ b ∈ cp.batches, b.batch_id ≠ bid) →
        update_batch_status now (some cp) bid bstatus = (false, some cp)) := by
  intro now tid status err res bid bstatus cp
  refine ⟨rfl, rfl, ?_, ?_⟩
  · intro h
    have hupd : updateFirstBatchTask now tid status err res cp.batches = none :=
      (updateFirstBatchTask_eq_none_iff now tid status err res cp.batches).mpr h
    simp [update_task_status, hupd]
  · intro h
    have hupd : updateFirstBatch now bid bstatus cp.batches = none :=
      (updateFirstBatch_eq_none_iff now bid bstatus cp.batches).mpr h
    simp [update_batch_status, hupd]

/-- C9 witness: an unknown task id and an unknown batch id against `cp0`. -/
theorem C9_witness :
    (findTaskInBatches "zz" cp0.batches = none ∧
      update_task_status 3 (some cp0) "zz" TaskStatus.completed none none =
        (false, some cp0)) ∧
    ((∀ b ∈ cp0.batches, b.batch_id ≠ 9) ∧
      update_batch_status 3 (some cp0) 9 BatchStatus.completed = (false, some cp0)) :=
  ⟨⟨by decide,
      (C9_missing_checkpoint_or_id_is_noop 3 "zz" TaskStatus.completed none none 9
          BatchStatus.completed cp0).2.2.1 (by decide)⟩,
    ⟨by decide,
      (C9_missing_checkpoint_or_id_is_noop 3 "zz" TaskStatus.completed none none 9
          BatchStatus.completed cp0).2.2.2 (by decide)⟩⟩

/-! Claim C10: the frame of `update_task_status`. -/

/-- What C10 asserts of each task paired with its post-update version: tasks
other than the addressed one are untouched, the stored `error_message`
survives a falsy error argument, and the stored `result` survives a falsy
result argument. -/
def taskFrameRel (tid : String) (res : Option String) (t t' : TaskState) : Prop :=
  (t.task_id ≠ tid → t' = t) ∧ t'.error_message = t.error_message ∧
  (truthy res = false → t'.result = t.result)

/-- What C10 asserts of each batch paired with its post-update version: every
batch field other than the task list is untouched. -/
def batchFrameRel (tid : String) (res : Option String) (b b' : BatchState) : Prop :=
  b'.batch_id = b.batch_id ∧ b'.name = b.name ∧ b'.batch_type = b.batch_type ∧
  b'.status = b.status ∧ b'.start_time = b.start_time ∧ b'.end_time = b.end_time ∧
  List.Forall₂ (taskFrameRel tid res) b.tasks b'.tasks

theorem taskFrameRel_refl (tid : String) (res : Option String) (ts : List TaskState) :
    List.Forall₂ (taskFrameRel tid res) ts ts :=
  List.forall₂_same.mpr fun _ _ => ⟨fun _ => rfl, rfl, fun _ => rfl⟩

theorem batchFrameRel_refl (tid : String) (res : Option String) (bs : List BatchState) :
    List.Forall₂ (batchFrameRel tid res) bs bs :=
  List.forall₂_same.mpr fun b _ =>
    ⟨rfl, rfl, rfl, rfl, rfl, rfl, taskFrameRel_refl tid res b.tasks⟩

theorem updateFirstTask_frame (now : Nat) (tid : String) (status : TaskStatus)
    (err res : Option String) (herr : truthy err = false) :
    ∀ (ts ts' : List TaskState), updateFirstTask now tid status err res ts = some ts' →
      List.Forall₂ (taskFrameRel tid res) ts ts'
  | [], ts' => by simp [updateFirstTask]
  | t :: ts, ts' => by
    intro h
    by_cases hid : t.task_id = tid
    · rw [updateFirstTask, if_pos hid] at h
      obtain rfl := (Option.some.inj h).symm
      refine List.Forall₂.cons ⟨fun hne => absurd hid hne, ?_, ?_⟩
        (taskFrameRel_refl tid res ts)
      · simp [applyTaskUpdate, herr]
      · intro hres
        simp [applyTaskUpdate, hres]
    · rw [updateFirstTask, if_neg hid] at h
      obtain ⟨ts₁, h1, rfl⟩ := Option.map_eq_some'.mp h
      exact List.Forall₂.cons ⟨fun _ => rfl, rfl, fun _ => rfl⟩
        (updateFirstTask_frame now tid status err res herr ts ts₁ h1)

theorem updateFirstBatchTask_frame (now : Nat) (tid : String) (status : TaskStatus)
    (err res : Option String) (herr : truthy err = false) :
    ∀ (bs bs' : List BatchState),
      updateFirstBatchTask now tid status err res bs = some bs' →
      List.Forall₂ (batchFrameRel tid res) bs bs'
  | [], bs' => by simp [updateFirstBatchTask]
  | b :: bs, bs' => by
    intro h
    rcases hu : updateFirstTask now tid status err res b.tasks with _ | ts'
    · rw [updateFirstBatchTask, hu] at h
      obtain ⟨bs₁, h1, rfl⟩ := Option.map_eq_some'.mp h
      exact List.Forall₂.cons
        ⟨rfl, rfl, rfl, rfl, rfl, rfl, taskFrameRel_refl tid res b.tasks⟩
        (updateFirstBatchTask_frame now tid status err res herr bs bs₁ h1)
    · rw [updateFirstBatchTask, hu] at h
      obtain rfl := (Option.some.inj h).symm
      exact List.Forall₂.cons
        ⟨rfl, rfl, rfl, rfl, rfl, rfl,
          updateFirstTask_frame now tid status err res herr b.tasks ts' hu⟩
        (batchFrameRel_refl tid res bs)

/-- C10 (confirmed): an `update_task_status` call whose `error_message`
argument is absent or empty leaves the stored `error_message` and the
checkpoint's `error_log` unchanged; an absent or empty `result` leaves the
stored `result` unchanged; and all tasks other than the addressed one, all
batch fields other than the addressed task, and all checkpoint fields except
`updated_at` are unchanged. -/
theorem C10_update_task_status_frame :
    ∀ (now : Nat) (cp : ExecutionCheckpoint) (tid : String) (status : TaskStatus)
      (err res : Option String),
      truthy err = false →
      ∃ cp', (update_task_status now (some cp) tid status err res).2 = some cp' ∧
        cp'.error_log = cp.error_log ∧
        cp'.feature_name = cp.feature_name ∧ cp'.version = cp.version ∧
        cp'.spec_completed = cp.spec_completed ∧
        cp'.current_batch = cp.current_batch ∧
        cp'.total_batches = cp.total_batches ∧ cp'.created_at = cp.created_at ∧
        cp'.execution_id = cp.execution_id ∧ cp'.config = cp.config ∧
        List.Forall₂ (batchFrameRel tid res) cp.batches cp'.batches := by
  intro now cp tid status err res herr
  rcases hu : updateFirstBatchTask now tid status err res cp.batches with _ | bs
  · refine ⟨cp, ?_, rfl, rfl, rfl, rfl, rfl, rfl, rfl, rfl, rfl,
      batchFrameRel_refl tid res cp.batches⟩
    simp [update_task_status, hu]
  · refine ⟨save_checkpoint now
        { cp with
          batches := bs
          error_log :=
            if truthy err then cp.error_log ++ [⟨tid, err.getD "", now⟩]
            else cp.error_log },
      ?_, ?_, rfl, rfl, rfl, rfl, rfl, rfl, rfl, rfl,
      updateFirstBatchTask_frame now tid status err res herr cp.batches bs hu⟩
    · simp [update_task_status, hu]
    · simp [save_checkpoint, herr]

/-- C10 witness: updating the fresh task of `cp0` to completed with no error
and no result. -/
theorem C10_witness :
    truthy none = false ∧
    ∃ cp', (update_task_status 4 (some cp0) "1.1" TaskStatus.completed none none).2 =
        some cp' ∧
      cp'.error_log = cp0.error_log ∧
      cp'.feature_name = cp0.feature_name ∧ cp'.version = cp0.version ∧
      cp'.spec_completed = cp0.spec_completed ∧
      cp'.current_batch = cp0.current_batch ∧
      cp'.total_batches = cp0.total_batches ∧ cp'.created_at = cp0.created_at ∧
      cp'.execution_id = cp0.execution_id ∧ cp'.config = cp0.config ∧
      List.Forall₂ (batchFrameRel "1.1" none) cp0.batches cp'.batches :=
  ⟨rfl, C10_update_task_status_frame 4 cp0 "1.1" TaskStatus.completed none none rfl⟩

/-! Claim C8: idempotence of terminal updates, up to timestamps. -/

/-- Erase a task's timestamp fields. -/
def stripTaskTimes (t : TaskState) : TaskState :=
  { t with start_time := none, end_time := none }

/-- Erase a batch's timestamp fields, recursively. -/
def stripBatchTimes (b : BatchState) : BatchState :=
  { b with start_time := none, end_time := none, tasks := b.tasks.map stripTaskTimes }

/-- Erase an error-log entry's timestamp. -/
def stripLogEntryTime (e : ErrorLogEntry) : ErrorLogEntry := { e with timestamp := 0 }

/-- Erase every timestamp of a checkpoint. -/
def stripCheckpointTimes (cp : ExecutionCheckpoint) : ExecutionCheckpoint :=
  { cp with
    created_at := 0
    updated_at := 0
    batches := cp.batches.map stripBatchTimes
    error_log := cp.error_log.map stripLogEntryTime }

/-- Erase every timestamp of a stored checkpoint. -/
def stripStoreTimes (store : Option ExecutionCheckpoint) : Option ExecutionCheckpoint :=
  store.map stripCheckpointTimes

theorem stripTask_applyTwice (now₁ now₂ : Nat) (status : TaskStatus)
    (err res : Option String) (t : TaskState) (herr : truthy err = false) :
    stripTaskTimes (applyTaskUpdate now₂ status err res (applyTaskUpdate now₁ status err res t)) =
      stripTaskTimes (applyTaskUpdate now₁ status err res t) := by
  by_cases hres : truthy res <;> simp [applyTaskUpdate, stripTaskTimes, herr, hres]

theorem updateFirstTask_twice (now₁ now₂ : Nat) (tid : String) (status : TaskStatus)
    (err res : Option String) (herr : truthy err = false) :
    ∀ (ts ts' : List TaskState), updateFirstTask now₁ tid status err res ts = some ts' →
      ∃ ts'', updateFirstTask now₂ tid status err res ts' = some ts'' ∧
        ts''.map stripTaskTimes = ts'.map stripTaskTimes
  | [], ts' => by simp [updateFirstTask]
  | t :: ts, ts' => by
    intro h
    by_cases hid : t.task_id = tid
    · rw [updateFirstTask, if_pos hid] at h
      obtain rfl := (Option.some.inj h).symm
      refine ⟨applyTaskUpdate now₂ status err res (applyTaskUpdate now₁ status err res t)
          :: ts, ?_, ?_⟩
      · rw [updateFirstTask, if_pos (by rw [applyTaskUpdate_task_id]; exact hid)]
      · simp [stripTask_applyTwice now₁ now₂ status err res t herr]
    · rw [updateFirstTask, if_neg hid] at h
      obtain ⟨ts₁, h1, rfl⟩ := Option.map_eq_some'.mp h
      obtain ⟨ts₂, h2, h3⟩ :=
        updateFirstTask_twice now₁ now₂ tid status err res herr ts ts₁ h1
      refine ⟨t :: ts₂, ?_, by simp [h3]⟩
      rw [updateFirstTask, if_neg hid, h2]
      rfl

theorem updateFirstBatchTask_twice (now₁ now₂ : Nat) (tid : String)
    (status : TaskStatus) (err res : Option String) (herr : truthy err = false) :
    ∀ (bs bs' : List BatchState),
      updateFirstBatchTask now₁ tid status err res bs = some bs' →
      ∃ bs'', updateFirstBatchTask now₂ tid status err res bs' = some bs'' ∧
        bs''.map stripBatchTimes = bs'.map stripBatchTimes
  | [], bs' => by simp [updateFirstBatchTask]
  | b :: bs, bs' => by
    intro h
    rcases hu : updateFirstTask now₁ tid status err res b.tasks with _ | ts'
    · rw [updateFirstBatchTask, hu] at h
      obtain ⟨bs₁, h1, rfl⟩ := Option.map_eq_some'.mp h
      obtain ⟨bs₂, h2, h3⟩ :=
        updateFirstBatchTask_twice now₁ now₂ tid status err res herr bs bs₁ h1
      have hu₂ : updateFirstTask now₂ tid status err res b.tasks = none :=
        (updateFirstTask_eq_none_iff now₂ tid status err res b.tasks).mpr
          ((updateFirstTask_eq_none_iff now₁ tid status err res b.tasks).mp hu)
      refine ⟨b :: bs₂, ?_, by simp [h3]⟩
      rw [updateFirstBatchTask, hu₂, h2]
      rfl
    · rw [updateFirstBatchTask, hu] at h
      obtain rfl := (Option.some.inj h).symm
      obtain ⟨ts₂, h2, h3⟩ :=
        updateFirstTask_twice now₁ now₂ tid status err res herr b.tasks ts' hu
      refine ⟨{ b with tasks := ts₂ } :: bs, ?_, ?_⟩
      · rw [updateFirstBatchTask]
        simp only [h2]
      · simp [stripBatchTimes, h3]

/-- C8 (amended): applying the same terminal `update_task_status` call twice
yields a persisted checkpoint identical to applying it once apart from
timestamps, PROVIDED the call carries no (or an empty) `error_message`; a
call with a non-empty error message appends a fresh `error_log` entry on
every application, so the twice-updated state differs beyond timestamps. -/
theorem C8_terminal_update_idempotent_without_error :
    ∀ (now₁ now₂ : Nat) (cp : ExecutionCheckpoint) (tid : String)
      (status : TaskStatus) (err res : Option String),
      (status = TaskStatus.completed ∨ status = TaskStatus.failed ∨
        status = TaskStatus.skipped) →
      truthy err = false →
      stripStoreTimes
          (update_task_status now₂
            (update_task_status now₁ (some cp) tid status err res).2
            tid status err res).2 =
        stripStoreTimes (update_task_status now₁ (some cp) tid status err res).2 := by
  intro now₁ now₂ cp tid status err res _ herr
  rcases hu : updateFirstBatchTask now₁ tid status err res cp.batches with _ | bs
  · have hu₂ : updateFirstBatchTask now₂ tid status err res cp.batches = none :=
      (updateFirstBatchTask_eq_none_iff now₂ tid status err res cp.batches).mpr
        ((updateFirstBatchTask_eq_none_iff now₁ tid status err res cp.batches).mp hu)
    simp [update_task_status, hu, hu₂]
  · obtain ⟨bs₂, h2, h3⟩ :=
      updateFirstBatchTask_twice now₁ now₂ tid status err res herr cp.batches bs hu
    simp [update_task_status, hu, h2, save_checkpoint, herr, stripStoreTimes,
      stripCheckpointTimes, h3]

/-- C8 counterexample: the same terminal update carrying an error message,
applied twice to `cp0`, leaves a persisted state that differs from a single
application beyond timestamps (the `error_log` gains a second entry). -/
theorem C8_counterexample_error_log_grows :
    stripStoreTimes
        (update_task_status 2
          (update_task_status 1 (some cp0) "1.1" TaskStatus.failed (some "boom") none).2
          "1.1" TaskStatus.failed (some "boom") none).2 ≠
      stripStoreTimes
        (update_task_status 1 (some cp0) "1.1" TaskStatus.failed (some "boom") none).2 := by
  decide

/-- C8 witness: a terminal update with no error message, applied twice to
`cp0`. -/
theorem C8_witness :
    (TaskStatus.completed = TaskStatus.completed ∨
      TaskStatus.completed = TaskStatus.failed ∨
      TaskStatus.completed = TaskStatus.skipped) ∧
    truthy none = false ∧
    stripStoreTimes
        (update_task_status 2
          (update_task_status 1 (some cp0) "1.1" TaskStatus.completed none none).2
          "1.1" TaskStatus.completed none none).2 =
      stripStoreTimes
        (update_task_status 1 (some cp0) "1.1" TaskStatus.completed none none).2 :=
  ⟨Or.inl rfl, rfl,
    C8_terminal_update_idempotent_without_error 1 2 cp0 "1.1" TaskStatus.completed
      none none (Or.inl rfl) rfl⟩

/-! Claims C2 and C6: the per-task retry loop. -/

/-- Recognises a work-function invocation in the trace. -/
def isAttemptEvent : EngineEvent → Bool
  | EngineEvent.attempt _ _ => true
  | _ => false

/-- Recognises a task-complete callback invocation in the trace. -/
def isTaskReportEvent : EngineEvent → Bool
  | EngineEvent.taskReport _ => true
  | _ => false

/-- Recognises a persistence call that writes a terminal task status. -/
def isTerminalTaskPersist : EngineEvent → Bool
  | EngineEvent.persistTask _ s =>
    match s with
    | TaskStatus.completed => true
    | TaskStatus.failed => true
    | TaskStatus.skipped => true
    | _ => false
  | _ => false

/-- The task status that `execute_task` persists for each non-cancelled
terminal outcome. -/
def outcomeStatus : ExecutionResult → TaskStatus
  | ExecutionResult.success => TaskStatus.completed
  | ExecutionResult.skipped => TaskStatus.skipped
  | _ => TaskStatus.failed

/-- A task execution's outcome is persisted terminally exactly once and
reported exactly once via the task-complete callback — except a cancelled
outcome, which is neither persisted nor reported. -/
def ReportedPersistedOnce (tid : String)
    (out : TaskResult × EngineState × List EngineEvent) : Prop :=
  (out.1.result = ExecutionResult.cancelled →
    out.2.2.countP isTaskReportEvent = 0 ∧
    out.2.2.countP isTerminalTaskPersist = 0) ∧
  (out.1.result ≠ ExecutionResult.cancelled →
    out.2.2.countP isTaskReportEvent = 1 ∧
    out.2.2.countP isTerminalTaskPersist = 1 ∧
    EngineEvent.persistTask tid (outcomeStatus out.1.result) ∈ out.2.2)

theorem failedOutcome_once (eng : Engine) (hcb : eng.has_task_complete = true)
    (now : Nat) (tid tname ex e : String) (rc : Nat) (st : EngineState) :
    ReportedPersistedOnce tid (failedOutcome eng now tid tname ex e rc st) := by
  constructor
  · intro h
    simp [failedOutcome] at h
  · intro _
    simp [failedOutcome, hcb, ReportedPersistedOnce, isTaskReportEvent,
      isTerminalTaskPersist, outcomeStatus]

theorem execTaskIter_once (eng : Engine) (hcb : eng.has_task_complete = true)
    (now : Nat) (tid tname ex : String) (work : Nat → Except String (Option String))
    (st : EngineState) (rc : Nat)
    (onRetry : String → TaskResult × EngineState × List EngineEvent)
    (hre : ∀ e, ReportedPersistedOnce tid (onRetry e)) :
    ReportedPersistedOnce tid (execTaskIter eng now tid tname ex work st rc onRetry) := by
  by_cases hc : st.cancelled
  · constructor
    · intro _
      simp [execTaskIter, hc]
    · intro hne
      exact absurd (by simp [execTaskIter, hc, mkCancelledResult]) hne
  · rcases hw : work rc with e | out
    · rcases hd : handle_error eng.config.error_strategy rc eng.config.max_retries
          eng.on_error_decision tid tname e with _ | _ | _
      · obtain ⟨h1, h2⟩ := hre e
        constructor
        · intro h
          have hres : (onRetry e).1.result = ExecutionResult.cancelled := by
            simpa [execTaskIter, hc, hw, hd] using h
          obtain ⟨ha, hb⟩ := h1 hres
          simp [execTaskIter, hc, hw, hd, isTaskReportEvent, isTerminalTaskPersist,
            isAttemptEvent, ha, hb]
        · intro h
          have hres : (onRetry e).1.result ≠ ExecutionResult.cancelled := by
            intro hx
            exact h (by simp [execTaskIter, hc, hw, hd, hx])
          obtain ⟨ha, hb, hm⟩ := h2 hres
          refine ⟨?_, ?_, ?_⟩
          · simp [execTaskIter, hc, hw, hd, isTaskReportEvent, ha]
          · simp [execTaskIter, hc, hw, hd, isTerminalTaskPersist, hb]
          · simp only [execTaskIter, hc, hw, hd]
            simp only [Bool.false_eq_true, if_false, List.mem_cons]
            right
            exact hm
      · constructor
        · intro h
          simp [execTaskIter, hc, hw, hd, skipOutcome] at h
        · intro _
          simp [execTaskIter, hc, hw, hd, skipOutcome, hcb, isTaskReportEvent,
            isTerminalTaskPersist, outcomeStatus]
      · constructor
        · intro h
          simp [execTaskIter, hc, hw, hd, failedOutcome] at h
        · intro _
          simp [execTaskIter, hc, hw, hd, failedOutcome, hcb, isTaskReportEvent,
            isTerminalTaskPersist, outcomeStatus]
    · constructor
      · intro h
        simp [execTaskIter, hc, hw] at h
      · intro _
        simp [execTaskIter, hc, hw, hcb, isTaskReportEvent, isTerminalTaskPersist,
          outcomeStatus]

theorem execTaskLoop_once (eng : Engine) (hcb : eng.has_task_complete = true)
    (now : Nat) (tid tname ex : String) (work : Nat → Except String (Option String)) :
    ∀ (fuel rc : Nat) (st : EngineState),
      ReportedPersistedOnce tid (execTaskLoop eng now tid tname ex work st rc fuel)
  | 0, rc, st =>
    execTaskIter_once eng hcb now tid tname ex work st rc _
      (fun e => failedOutcome_once eng hcb now tid tname ex e (rc + 1) st)
  | fuel + 1, rc, st =>
    execTaskIter_once eng hcb now tid tname ex work st rc _
      (fun _ => execTaskLoop_once eng hcb now tid tname ex work fuel (rc + 1) st)

/-- C6 (amended): with a task-complete callback registered, every terminal
outcome of `execute_task` other than `cancelled` is persisted exactly once
(under the matching terminal status) and reported exactly once via the
callback; a `cancelled` outcome is returned with NO terminal persistence and
NO completion callback. -/
theorem C6_terminal_outcomes_persisted_reported_once :
    ∀ (f : String) (cfg : ExecutionConfig)
      (cb : Option (String → String → String → ErrorDecision)) (now : Nat)
      (tid tname ex : String) (work : Nat → Except String (Option String))
      (st : EngineState),
      ReportedPersistedOnce tid
        (execute_task ⟨f, cfg, cb, true⟩ now tid tname ex work st) := by
  intro f cfg cb now tid tname ex work st
  have h := execTaskLoop_once ⟨f, cfg, cb, true⟩ rfl now tid tname ex work
    cfg.max_retries 0
    { st with
      store := (update_task_status now st.store tid TaskStatus.in_progress none none).2 }
  obtain ⟨h1, h2⟩ := h
  constructor
  · intro hres
    obtain ⟨ha, hb⟩ := h1 (by simpa [execute_task] using hres)
    constructor
    · simpa [execute_task, isTaskReportEvent] using ha
    · simpa [execute_task, isTerminalTaskPersist] using hb
  · intro hres
    obtain ⟨ha, hb, hm⟩ := h2 (by simpa [execute_task] using hres)
    refine ⟨?_, ?_, ?_⟩
    · simpa [execute_task, isTaskReportEvent] using ha
    · simpa [execute_task, isTerminalTaskPersist] using hb
    · simp only [execute_task, List.mem_cons]
      right
      exact hm

/-- C6 witness: the amended theorem at a concrete permanently failing task. -/
theorem C6_witness :
    ReportedPersistedOnce "1.1"
      (execute_task ⟨"f", ⟨2, ErrorStrategy.retry⟩, none, true⟩ 7 "1.1" "T" "x"
        (fun _ => Except.error "boom") ⟨false, some cp0⟩) :=
  C6_terminal_outcomes_persisted_reported_once "f" ⟨2, ErrorStrategy.retry⟩ none 7
    "1.1" "T" "x" (fun _ => Except.error "boom") ⟨false, some cp0⟩

/-- C6 counterexample: a task entered with the cancellation flag set returns
the terminal outcome `cancelled`, which is neither persisted terminally nor
reported through the (registered) task-complete callback — not "persisted
exactly once and reported exactly once" as claimed. -/
theorem C6_counterexample_cancelled_not_persisted_nor_reported :
    (execute_task engRetry2 7 "1.1" "T" "x" (fun _ => Except.error "boom")
        ⟨true, some cp0⟩).1.result = ExecutionResult.cancelled ∧
    engRetry2.has_task_complete = true ∧
    (execute_task engRetry2 7 "1.1" "T" "x" (fun _ => Except.error "boom")
        ⟨true, some cp0⟩).2.2.countP isTaskReportEvent = 0 ∧
    (execute_task engRetry2 7 "1.1" "T" "x" (fun _ => Except.error "boom")
        ⟨true, some cp0⟩).2.2.countP isTerminalTaskPersist = 0 := by
  refine ⟨rfl, rfl, rfl, rfl⟩

/-- C2 (amended): under strategy `retry` with `max_retries = 2`, a task whose
work function fails on every attempt is attempted exactly 3 times and settles
into the terminal outcome `skipped` (NOT `failed`) with `retry_count = 2`,
persisting task status skipped: after the bound is exhausted the retry
strategy resolves to skip, so the failed tail is unreachable. -/
theorem C2_retry_exhaustion_ends_skipped :
    ∀ (f : String) (cb : Option (String → String → String → ErrorDecision))
      (hcb : Bool) (now : Nat) (tid tname ex : String) (err : Nat → String)
      (store : Option ExecutionCheckpoint),
      (execute_task ⟨f, ⟨2, ErrorStrategy.retry⟩, cb, hcb⟩ now tid tname ex
          (fun n => Except.error (err n)) ⟨false, store⟩).1.result =
        ExecutionResult.skipped ∧
      (execute_task ⟨f, ⟨2, ErrorStrategy.retry⟩, cb, hcb⟩ now tid tname ex
          (fun n => Except.error (err n)) ⟨false, store⟩).1.retry_count = 2 ∧
      (execute_task ⟨f, ⟨2, ErrorStrategy.retry⟩, cb, hcb⟩ now tid tname ex
          (fun n => Except.error (err n)) ⟨false, store⟩).2.2.countP
        isAttemptEvent = 3 ∧
      EngineEvent.persistTask tid TaskStatus.skipped ∈
        (execute_task ⟨f, ⟨2, ErrorStrategy.retry⟩, cb, hcb⟩ now tid tname ex
          (fun n => Except.error (err n)) ⟨false, store⟩).2.2 := by
  intro f cb hcb now tid tname ex err store
  cases hcb <;>
    exact ⟨rfl, rfl, rfl, by
      simp [execute_task, execTaskLoop, execTaskIter, handle_error, skipOutcome]⟩

/-- C2 counterexample: the concrete permanently failing task under
`engRetry2` returns the terminal outcome `skipped` with `retry_count = 2` —
not `failed` as the claim states. -/
theorem C2_counterexample_result_is_skipped_not_failed :
    (execute_task engRetry2 7 "1.1" "T" "x" (fun _ => Except.error "boom")
        ⟨false, some cp0⟩).1.result = ExecutionResult.skipped ∧
    (execute_task engRetry2 7 "1.1" "T" "x" (fun _ => Except.error "boom")
        ⟨false, some cp0⟩).1.result ≠ ExecutionResult.failed ∧
    (execute_task engRetry2 7 "1.1" "T" "x" (fun _ => Except.error "boom")
        ⟨false, some cp0⟩).1.retry_count = 2 := by
  refine ⟨rfl, by decide, rfl⟩

/-! Claim C3: batch status derivation. -/

theorem failed_count_eq_zero_iff (br : BatchResult) :
    br.failed_count = 0 ↔ ∀ r ∈ br.task_results, r.result ≠ ExecutionResult.failed := by
  simp [BatchResult.failed_count, List.countP_eq_zero]

theorem success_count_eq_zero_iff (br : BatchResult) :
    br.success_count = 0 ↔ ∀ r ∈ br.task_results, r.result ≠ ExecutionResult.success := by
  simp [BatchResult.success_count, List.countP_eq_zero]

/-- C3 (amended): the batch status both execution paths derive is a function
of the outcome counts, but keyed on failures rather than all-success: with no
cancellation, zero failed results yields `completed` even when some results
are skipped (not `partial` as claimed); at least one failure with zero
successes yields `failed`; a failure together with a success yields
`partial`; and a cancellation observed at the end of the batch yields
`partial` regardless of the counts.  The serial and parallel paths both
return exactly this derivation applied to their collected results. -/
theorem C3_batch_status_from_outcome_counts :
    (∀ (c : Bool) (br : BatchResult),
      (deriveBatchStatus c br = BatchStatus.completed ↔
        c = false ∧ ∀ r ∈ br.task_results, r.result ≠ ExecutionResult.failed) ∧
      (deriveBatchStatus c br = BatchStatus.failed ↔
        c = false ∧ (∃ r ∈ br.task_results, r.result = ExecutionResult.failed) ∧
          ∀ r ∈ br.task_results, r.result ≠ ExecutionResult.success) ∧
      (deriveBatchStatus c br = BatchStatus.partial_ ↔
        c = true ∨ ((∃ r ∈ br.task_results, r.result = ExecutionResult.failed) ∧
          ∃ r ∈ br.task_results, r.result = ExecutionResult.success))) ∧
    (∀ (eng : Engine) (now : Nat) (bid : Int) (bname : String)
        (tasks : List TaskSpec) (work : TaskSpec → Nat → Except String (Option String))
        (st : EngineState),
      (execute_batch_serial eng now bid bname tasks work st).1.status =
        deriveBatchStatus
          (execute_batch_serial eng now bid bname tasks work st).2.1.cancelled
          (execute_batch_serial eng now bid bname tasks work st).1) ∧
    (∀ (eng : Engine) (now : Nat) (bid : Int) (bname : String)
        (tasks : List TaskSpec) (work : TaskSpec → Nat → Except String (Option String))
        (st : EngineState),
      (execute_batch_parallel eng now bid bname tasks work st).1.status =
        deriveBatchStatus
          (execute_batch_parallel eng now bid bname tasks work st).2.1.cancelled
          (execute_batch_parallel eng now bid bname tasks work st).1) := by
  refine ⟨?_, fun _ _ _ _ _ _ _ => rfl, fun _ _ _ _ _ _ _ => rfl⟩
  intro c br
  cases c
  · by_cases hf : br.failed_count = 0
    · have hf' := (failed_count_eq_zero_iff br).mp hf
      have hval : deriveBatchStatus false br = BatchStatus.completed := by
        simp [deriveBatchStatus, hf]
      rw [hval]
      refine ⟨iff_of_true rfl ⟨rfl, hf'⟩, iff_of_false (by decide) ?_,
        iff_of_false (by decide) ?_⟩
      · rintro ⟨-, ⟨r, hr, hrr⟩, -⟩
        exact absurd hrr (hf' r hr)
      · rintro (hc | ⟨⟨r, hr, hrr⟩, -⟩)
        · cases hc
        · exact absurd hrr (hf' r hr)
    · have hex : ∃ r ∈ br.task_results, r.result = ExecutionResult.failed := by
        by_contra hne
        push_neg at hne
        exact hf ((failed_count_eq_zero_iff br).mpr hne)
      by_cases hs : br.success_count = 0
      · have hs' := (success_count_eq_zero_iff br).mp hs
        have hval : deriveBatchStatus false br = BatchStatus.failed := by
          simp [deriveBatchStatus, hf, hs]
        rw [hval]
        refine ⟨iff_of_false (by decide) ?_, iff_of_true rfl ⟨rfl, hex, hs'⟩,
          iff_of_false (by decide) ?_⟩
        · rintro ⟨-, hall⟩
          exact hf ((failed_count_eq_zero_iff br).mpr hall)
        · rintro (hc | ⟨-, r, hr, hrr⟩)
          · cases hc
          · exact absurd hrr (hs' r hr)
      · have hex2 : ∃ r ∈ br.task_results, r.result = ExecutionResult.success := by
          by_contra hne
          push_neg at hne
          exact hs ((success_count_eq_zero_iff br).mpr hne)
        have hval : deriveBatchStatus false br = BatchStatus.partial_ := by
          simp [deriveBatchStatus, hf, hs]
        rw [hval]
        refine ⟨iff_of_false (by decide) ?_, iff_of_false (by decide) ?_,
          iff_of_true rfl (Or.inr ⟨hex, hex2⟩)⟩
        · rintro ⟨-, hall⟩
          exact hf ((failed_count_eq_zero_iff br).mpr hall)
        · rintro ⟨-, -, hall⟩
          exact hs ((success_count_eq_zero_iff br).mpr hall)
  · have hval : deriveBatchStatus true br = BatchStatus.partial_ := rfl
    rw [hval]
    refine ⟨iff_of_false (by decide) ?_, iff_of_false (by decide) ?_,
      iff_of_true rfl (Or.inl rfl)⟩
    · rintro ⟨hc, -⟩
      cases hc
    · rintro ⟨hc, -⟩
      cases hc

/-- C3 counterexample: a serial batch whose single task ends `skipped` (a mix
that is not all-success) gets batch status `completed`, not `partial` as the
claim requires. -/
theorem C3_counterexample_skipped_batch_completed :
    (execute_batch_serial engSkip 7 1 "B1" [taskSpec11] (fun _ _ => Except.error "boom")
        ⟨false, some cp0⟩).1.status = BatchStatus.completed ∧
    (execute_batch_serial engSkip 7 1 "B1" [taskSpec11] (fun _ _ => Except.error "boom")
        ⟨false, some cp0⟩).1.task_results.map (·.result) = [ExecutionResult.skipped] ∧
    (execute_batch_serial engSkip 7 1 "B1" [taskSpec11] (fun _ _ => Except.error "boom")
        ⟨false, some cp0⟩).1.status ≠ BatchStatus.partial_ ∧
    (execute_batch_serial engSkip 7 1 "B1" [taskSpec11] (fun _ _ => Except.error "boom")
        ⟨false, some cp0⟩).2.1.cancelled = false := by
  refine ⟨rfl, rfl, by decide, rfl⟩


/-! Claim C1: resume skipping in execute_all_batches. -/

theorem execTaskLoop_ok (eng : Engine) (now : Nat) (tid tname ex : String)
    (out : Nat → Option String) :
    ∀ (fuel rc : Nat) (st : EngineState), st.cancelled = false →
      (execTaskLoop eng now tid tname ex (fun n => Except.ok (out n)) st rc fuel).1.result =
        ExecutionResult.success ∧
      (execTaskLoop eng now tid tname ex (fun n => Except.ok (out n)) st rc fuel).2.1.cancelled =
        false := by
  intro fuel rc st hc
  cases fuel <;> simp [execTaskLoop, execTaskIter, hc]

theorem execute_task_ok (eng : Engine) (now : Nat) (tid tname ex : String)
    (out : Nat → Option String) (st : EngineState) (hc : st.cancelled = false) :
    (execute_task eng now tid tname ex (fun n => Except.ok (out n)) st).1.result =
      ExecutionResult.success ∧
    (execute_task eng now tid tname ex (fun n => Except.ok (out n)) st).2.1.cancelled =
      false := by
  have h := execTaskLoop_ok eng now tid tname ex out eng.config.max_retries 0
    { st with
      store := (update_task_status now st.store tid TaskStatus.in_progress none none).2 }
    hc
  exact ⟨h.1, h.2⟩

theorem serialLoop_ok (eng : Engine) (now : Nat) (out : TaskSpec → Nat → Option String) :
    ∀ (tasks : List TaskSpec) (st : EngineState), st.cancelled = false →
      (serialLoop eng now (fun t n => Except.ok (out t n)) tasks st).2.1.cancelled = false ∧
      ((serialLoop eng now (fun t n => Except.ok (out t n)) tasks st).1.countP
        fun tr => tr.result == ExecutionResult.failed) = 0
  | [], st => fun hc => ⟨hc, rfl⟩
  | t :: ts, st => by
    intro hc
    have h1 := execute_task_ok eng now t.id t.name t.executor (out t) st hc
    have hcond : ¬((execute_task eng now t.id t.name t.executor
        (fun n => Except.ok (out t n)) st).1.result = ExecutionResult.failed ∧
        eng.config.error_strategy = ErrorStrategy.fail_fast) := by
      rintro ⟨hx, -⟩
      rw [h1.1] at hx
      cases hx
    have ih := serialLoop_ok eng now out ts
      ((execute_task eng now t.id t.name t.executor (fun n => Except.ok (out t n)) st).2.1)
      h1.2
    constructor
    · simp only [serialLoop, hc, Bool.false_eq_true, if_false, if_neg hcond]
      exact ih.1
    · simp only [serialLoop, hc, Bool.false_eq_true, if_false, if_neg hcond,
        List.countP_cons]
      rw [ih.2]
      simp [h1.1]

theorem execute_batch_serial_ok (eng : Engine) (now : Nat) (bid : Int) (bname : String)
    (tasks : List TaskSpec) (out : TaskSpec → Nat → Option String) (st : EngineState)
    (hc : st.cancelled = false) :
    (execute_batch_serial eng now bid bname tasks
        (fun t n => Except.ok (out t n)) st).1.status = BatchStatus.completed ∧
    (execute_batch_serial eng now bid bname tasks
        (fun t n => Except.ok (out t n)) st).2.1.cancelled = false ∧
    (execute_batch_serial eng now bid bname tasks
        (fun t n => Except.ok (out t n)) st).1.batch_id = bid := by
  have h := serialLoop_ok eng now out tasks
    { st with store := (update_batch_status now st.store bid BatchStatus.in_progress).2 }
    hc
  refine ⟨?_, h.1, rfl⟩
  show deriveBatchStatus _ _ = _
  rw [deriveBatchStatus]
  simp only [h.1, Bool.false_eq_true, if_false]
  rw [if_pos]
  show List.countP _ _ = 0
  exact h.2

theorem parallelLoop_ok (eng : Engine) (now : Nat) (out : TaskSpec → Nat → Option String) :
    ∀ (tasks : List TaskSpec) (st : EngineState), st.cancelled = false →
      (parallelLoop eng now (fun t n => Except.ok (out t n)) tasks st).2.1.cancelled = false ∧
      ((parallelLoop eng now (fun t n => Except.ok (out t n)) tasks st).1.countP
        fun tr => tr.result == ExecutionResult.failed) = 0
  | [], st => fun hc => ⟨hc, rfl⟩
  | t :: ts, st => by
    intro hc
    have h1 := execute_task_ok eng now t.id t.name t.executor (out t) st hc
    have ih := parallelLoop_ok eng now out ts
      ((execute_task eng now t.id t.name t.executor (fun n => Except.ok (out t n)) st).2.1)
      h1.2
    constructor
    · simp only [parallelLoop, hc, Bool.false_eq_true, if_false]
      exact ih.1
    · simp only [parallelLoop, hc, Bool.false_eq_true, if_false, List.countP_cons]
      rw [ih.2]
      simp [h1.1]

theorem execute_batch_parallel_ok (eng : Engine) (now : Nat) (bid : Int) (bname : String)
    (tasks : List TaskSpec) (out : TaskSpec → Nat → Option String) (st : EngineState)
    (hc : st.cancelled = false) :
    (execute_batch_parallel eng now bid bname tasks
        (fun t n => Except.ok (out t n)) st).1.status = BatchStatus.completed ∧
    (execute_batch_parallel eng now bid bname tasks
        (fun t n => Except.ok (out t n)) st).2.1.cancelled = false ∧
    (execute_batch_parallel eng now bid bname tasks
        (fun t n => Except.ok (out t n)) st).1.batch_id = bid := by
  have h := parallelLoop_ok eng now out tasks
    { st with store := (update_batch_status now st.store bid BatchStatus.in_progress).2 }
    hc
  refine ⟨?_, h.1, rfl⟩
  show deriveBatchStatus _ _ = _
  rw [deriveBatchStatus]
  simp only [h.1, Bool.false_eq_true, if_false]
  rw [if_pos]
  show List.countP _ _ = 0
  exact h.2

theorem dispatchBatch_ok (eng : Engine) (now : Nat) (b : BatchSpec)
    (out : TaskSpec → Nat → Option String) (st : EngineState)
    (hc : st.cancelled = false) :
    (dispatchBatch eng now b (fun t n => Except.ok (out t n)) st).1.status =
      BatchStatus.completed ∧
    (dispatchBatch eng now b (fun t n => Except.ok (out t n)) st).2.1.cancelled = false ∧
    (dispatchBatch eng now b (fun t n => Except.ok (out t n)) st).1.batch_id = b.id := by
  by_cases ht : b.batch_type = "parallel"
  · simp only [dispatchBatch, ht, if_pos]
    exact execute_batch_parallel_ok eng now b.id b.name b.tasks out st hc
  · simp only [dispatchBatch, if_neg ht]
    exact execute_batch_serial_ok eng now b.id b.name b.tasks out st hc

theorem batchesLoop_ok (eng : Engine) (now : Nat) (out : TaskSpec → Nat → Option String)
    (s : Int) :
    ∀ (l : List BatchSpec) (i : Nat) (st : EngineState), st.cancelled = false →
      (batchesLoop eng now (fun t n => Except.ok (out t n)) s i l st).1.map (·.batch_id) =
        (l.drop (s - (i : Int)).toNat).map (·.id) ∧
      (batchesLoop eng now (fun t n => Except.ok (out t n)) s i l st).2.1.cancelled = false
  | [], i, st => fun hc => ⟨by simp [batchesLoop], hc⟩
  | b :: rest, i, st => by
    intro hc
    by_cases hi : (i : Int) < s
    · have hdrop : (s - (i : Int)).toNat = (s - ((i : Nat) + 1 : Nat) : Int).toNat + 1 := by
        push_cast
        omega
      have ih := batchesLoop_ok eng now out s rest (i + 1) st hc
      constructor
      · simp only [batchesLoop, hi, if_pos]
        rw [ih.1, hdrop, List.drop_succ_cons]
      · simp only [batchesLoop, hi, if_pos]
        exact ih.2
    · have hdrop : (s - (i : Int)).toNat = 0 := by omega
      have hdrop2 : (s - ((i : Nat) + 1 : Nat) : Int).toNat = 0 := by push_cast; omega
      have hd := dispatchBatch_ok eng now b out st hc
      have hcond : ¬((dispatchBatch eng now b (fun t n => Except.ok (out t n)) st).1.status =
          BatchStatus.failed ∧ eng.config.error_strategy = ErrorStrategy.fail_fast) := by
        rintro ⟨hx, -⟩
        rw [hd.1] at hx
        cases hx
      have ih := batchesLoop_ok eng now out s rest (i + 1)
        ((dispatchBatch eng now b (fun t n => Except.ok (out t n)) st).2.1) hd.2.1
      constructor
      · simp only [batchesLoop, hi, if_neg, hc, Bool.false_eq_true, if_false,
          if_neg hcond, List.map_cons]
        rw [hd.2.2, ih.1, hdrop, hdrop2]
        simp
      · simp only [batchesLoop, hi, if_neg, hc, Bool.false_eq_true, if_false,
          if_neg hcond]
        exact ih.2



/-- C1 (amended): with `resume=true` and an existing checkpoint, the driver
starts at LIST POSITION `resume_batch_id - 1` (derived from the resume
point's batch id, or position 0 when no resume point exists) and executes
every batch from that position on, regardless of the skipped batches'
statuses: batches before the resume point are skipped even when `failed`
rather than completed, and when every batch is already `completed` (or the
remaining ones all `failed`) there is no resume point, so ALL batches are
re-executed from the beginning instead of being skipped.  Stated for an
always-succeeding work function, which rules out mid-run aborts: the executed
batch ids are exactly those of the batches the start position keeps. -/
theorem C1_resume_starts_at_resume_index :
    ∀ (eng : Engine) (now : Nat) (batches : List BatchSpec)
      (out : TaskSpec → Nat → Option String) (cp : ExecutionCheckpoint),
      (execute_all_batches eng now batches (fun t n => Except.ok (out t n)) true
          ⟨false, some cp⟩).1.map (·.batch_id) =
        (batches.drop (resume_start_batch (some cp)).toNat).map (·.id) := by
  intro eng now batches out cp
  have h := batchesLoop_ok eng now out (resume_start_batch (some cp)) batches 0
    ⟨false, some cp⟩ rfl
  simpa [execute_all_batches] using h.1

/-- C1 counterexample: resuming over a checkpoint in which EVERY batch is
already completed does not skip them — the completed batch is re-entered and
its task's work function is invoked again, contradicting "skips exactly the
batches that are already fully completed". -/
theorem C1_counterexample_completed_checkpoint_reexecuted :
    (∀ b ∈ cpDone.batches, b.status = BatchStatus.completed) ∧
    (execute_all_batches engRetry2 9 [batchSpec1] (fun _ _ => Except.ok (some "v")) true
        ⟨false, some cpDone⟩).1.map (·.batch_id) = [1] ∧
    EngineEvent.attempt "1.1" 0 ∈
      (execute_all_batches engRetry2 9 [batchSpec1] (fun _ _ => Except.ok (some "v")) true
        ⟨false, some cpDone⟩).2.2 := by
  refine ⟨by decide, rfl, by decide⟩


end NexusCLI

